import Mathlib

/-!
# Verification of the `lascucharasbackend` service (`main.py`)

Shallow embedding of the FastAPI + SQLAlchemy backend in `main.py`:
a structural-health-monitoring dashboard over four tables
(`bridges`, `sensors`, `measurements`, `kpis`).

Modelling conventions:
* `DateTime` columns are abstracted to integers (`Int`), ordered as the
  underlying timestamps are; their string renderings (`isoformat`,
  `strftime`) are abstracted to the canonical decimal rendering.
* `Float` columns carry opaque sample values that the code never does
  arithmetic on; they are modelled as `Int`.
* A SQLAlchemy table is a Lean list of rows; a query
  `filter ... order_by ... limit ...` is `List.filter`, a sort, and
  `List.take`.  `desc(c)` sorts by `≥` on the column.
* Python truthiness of an optional string (`if payload.id`,
  `if target_bridge_id`) is false exactly on `none` and `some ""`.
* Python's Unicode `str.isalnum` / `str.lower` are modelled by Lean's
  `Char.isAlphanum` / `Char.toLower` (they agree on ASCII).
-/

namespace LasCucharas

/-- Row of the `bridges` table (`BridgeDB`, main.py lines 48-62). -/
structure BridgeDB where
  id : String
  name : String
  region : String
  lat : Int
  lng : Int
  image_data : Option String := none
  admin_status : String := "active"
  deriving DecidableEq, Repr

/-- Row of the `sensors` table (`SensorDB`, main.py lines 64-84). -/
structure SensorDB where
  id : String
  bridge_id : String
  «alias» : String
  pos_x : Int
  pos_y : Int
  odr : Int := 125
  range_g : Int := 2
  filter_type : String := "high-pass"
  health_battery : Option Int := none
  health_rssi : Option Int := none
  last_seen : Option Int := none
  status : Option String := some "ok"
  deriving DecidableEq, Repr

/-- Row of the `measurements` table (`MeasurementDB`, main.py lines 86-97);
primary key is the pair `(ts, sensor_id)`. -/
structure MeasurementDB where
  ts : Int
  sensor_id : String
  acc_x : Int
  acc_y : Int
  acc_z : Int
  temp : Int
  battery : Option Int := none
  rssi : Option Int := none
  deriving DecidableEq, Repr

/-- Row of the `kpis` table (`KpiDB`, main.py lines 99-115). -/
structure KpiDB where
  id : Int
  timestamp : Int
  bridge_id : String
  kpi_type : String
  value : Option Int := none
  text_value : Option String := none
  status : Option String := some "ok"
  confidence : Option Int := none
  deriving DecidableEq, Repr

/-- The whole database state. -/
structure DB where
  bridges : List BridgeDB := []
  sensors : List SensorDB := []
  measurements : List MeasurementDB := []
  kpis : List KpiDB := []
  deriving DecidableEq, Repr

/-- The `(ts, sensor_id)` primary key of `measurements`: two distinct stored
rows for the same sensor have distinct timestamps. -/
def measurementsPK (db : DB) : Prop :=
  ∀ m1 ∈ db.measurements, ∀ m2 ∈ db.measurements,
    m1.sensor_id = m2.sensor_id → m1.ts = m2.ts → m1 = m2

/-- The `location` dict of the payloads (keys `region`, `lat`, `lng`). -/
structure Location where
  region : String
  lat : Int
  lng : Int
  deriving DecidableEq, Repr

/-- `BridgeCreatePayload` (main.py lines 143-147). -/
structure BridgeCreatePayload where
  name : String
  location : Location
  image_data : Option String := none
  id : Option String := none
  deriving DecidableEq, Repr

/-- Python truthiness of an `Optional[str]` value. -/
def truthyStr : Option String → Bool
  | none => false
  | some s => s ≠ ""

/-- `generate_bridge_id` (main.py lines 159-161):
`clean_name = "".join(e for e in name if e.isalnum()).lower()`,
then `f"br-{clean_name[:8]}"`. -/
def generate_bridge_id (name : String) : String :=
  let clean_name := String.mk ((name.data.filter Char.isAlphanum).map Char.toLower)
  "br-" ++ String.mk (clean_name.data.take 8)

/-- `payload.id if payload.id else generate_bridge_id(payload.name)`
(main.py line 169). -/
def resolveBridgeId (p : BridgeCreatePayload) : String :=
  match p.id with
  | some s => if s ≠ "" then s else generate_bridge_id p.name
  | none => generate_bridge_id p.name

/-- Replace the first element satisfying `q` by its image under `f`
(the effect of mutating the row returned by `query.filter(...).first()`). -/
def updateFirst (q : α → Bool) (f : α → α) : List α → List α
  | [] => []
  | x :: xs => if q x then f x :: xs else x :: updateFirst q f xs

/-- The new `BridgeDB` row built in the `if not bridge:` branch
(main.py lines 173-181). -/
def mkBridge (bid : String) (p : BridgeCreatePayload) : BridgeDB :=
  { id := bid, name := p.name, region := p.location.region,
    lat := p.location.lat, lng := p.location.lng, image_data := p.image_data }

/-- The field overwrites of the `else:` branch (main.py lines 183-188);
`image_data` is overwritten only when the payload's value is truthy. -/
def applyBridgePayload (p : BridgeCreatePayload) (b : BridgeDB) : BridgeDB :=
  let b1 : BridgeDB :=
    { b with name := p.name, region := p.location.region,
             lat := p.location.lat, lng := p.location.lng }
  if truthyStr p.image_data then { b1 with image_data := p.image_data } else b1

/-- `POST /admin/bridge` = `create_or_update_bridge` (main.py lines 167-192). -/
def create_or_update_bridge (p : BridgeCreatePayload) (db : DB) : DB :=
  let bid := resolveBridgeId p
  if db.bridges.any (fun b => b.id = bid) then
    { db with bridges := updateFirst (fun b => b.id = bid) (applyBridgePayload p) db.bridges }
  else
    { db with bridges := db.bridges ++ [mkBridge bid p] }

/-- `DELETE /admin/bridge/{bridge_id}` = `delete_bridge`
(main.py lines 232-240).  `none` models the 404 branch.  The cascade
follows the relationship declarations: deleting a bridge deletes its
sensors and kpis (`cascade="all, delete-orphan"`, lines 61-62), and each
deleted sensor's measurements (line 84). -/
def delete_bridge (bridge_id : String) (db : DB) : Option DB :=
  if db.bridges.any (fun b => b.id = bridge_id) then
    some { bridges := db.bridges.filter (fun b => ¬ b.id = bridge_id),
           sensors := db.sensors.filter (fun s => ¬ s.bridge_id = bridge_id),
           measurements := db.measurements.filter
             (fun m => ¬ ∃ s ∈ db.sensors, s.bridge_id = bridge_id ∧ s.id = m.sensor_id),
           kpis := db.kpis.filter (fun k => ¬ k.bridge_id = bridge_id) }
  else none

/-- `DELETE /admin/sensor/{sensor_id}` = `delete_sensor`
(main.py lines 242-250); cascades to the sensor's measurements (line 84). -/
def delete_sensor (sensor_id : String) (db : DB) : Option DB :=
  if db.sensors.any (fun s => s.id = sensor_id) then
    some { db with
           sensors := db.sensors.filter (fun s => ¬ s.id = sensor_id),
           measurements := db.measurements.filter (fun m => ¬ m.sensor_id = sensor_id) }
  else none

/-! ### Helper lemmas about `updateFirst` -/

theorem length_updateFirst (q : α → Bool) (f : α → α) (l : List α) :
    (updateFirst q f l).length = l.length := by
  induction l with
  | nil => rfl
  | cons x xs ih =>
    simp only [updateFirst]
    cases hq : q x <;> simp [ih]

theorem updateFirst_fix (q : α → Bool) (f : α → α) (l : List α)
    (h : ∀ x ∈ l, q x = true → f x = x) : updateFirst q f l = l := by
  induction l with
  | nil => rfl
  | cons x xs ih =>
    simp only [updateFirst]
    cases hq : q x
    · simp only [Bool.false_eq_true, if_false, List.cons.injEq, true_and]
      exact ih fun y hy => h y (List.mem_cons_of_mem x hy)
    · simp [h x (List.mem_cons_self x xs) hq]

theorem updateFirst_append_left (q : α → Bool) (f : α → α) (l1 l2 : List α)
    (h : ∀ x ∈ l1, q x = false) :
    updateFirst q f (l1 ++ l2) = l1 ++ updateFirst q f l2 := by
  induction l1 with
  | nil => rfl
  | cons x xs ih =>
    have hx : q x = false := h x (List.mem_cons_self x xs)
    simp only [List.cons_append, updateFirst, hx, Bool.false_eq_true, if_false,
      List.cons.injEq, true_and]
    exact ih fun y hy => h y (List.mem_cons_of_mem x hy)

theorem any_updateFirst (q : α → Bool) (f : α → α) (l : List α)
    (hq : ∀ x, q (f x) = q x) : (updateFirst q f l).any q = l.any q := by
  induction l with
  | nil => rfl
  | cons x xs ih =>
    simp only [updateFirst]
    cases hx : q x <;> simp [List.any_cons, hx, hq, ih]

theorem updateFirst_idem (q : α → Bool) (f : α → α) (l : List α)
    (hq : ∀ x, q (f x) = q x) (hf : ∀ x, q x = true → f (f x) = f x) :
    updateFirst q f (updateFirst q f l) = updateFirst q f l := by
  induction l with
  | nil => rfl
  | cons x xs ih =>
    cases hx : q x
    · simp only [updateFirst, hx, Bool.false_eq_true, if_false, List.cons.injEq, true_and]
      exact ih
    · simp [updateFirst, hx, hq, hf x hx]

theorem filter_length_updateFirst (q : α → Bool) (f : α → α) (l : List α)
    (hq : ∀ x, q (f x) = q x) :
    ((updateFirst q f l).filter q).length = (l.filter q).length := by
  induction l with
  | nil => rfl
  | cons x xs ih =>
    cases hx : q x
    · simp only [updateFirst, hx, Bool.false_eq_true, if_false]
      simp [List.filter_cons, hx, ih]
    · simp [updateFirst, hx, List.filter_cons, hq]

theorem exists_mem_updateFirst (q : α → Bool) (f : α → α) (l : List α)
    (h : l.any q = true) :
    ∃ x ∈ l, q x = true ∧ f x ∈ updateFirst q f l := by
  induction l with
  | nil => simp at h
  | cons x xs ih =>
    cases hx : q x
    · simp only [List.any_cons, hx, Bool.false_or] at h
      obtain ⟨y, hy, hqy, hmem⟩ := ih h
      exact ⟨y, List.mem_cons_of_mem x hy, hqy,
        by simp [updateFirst, hx, List.mem_cons_of_mem, hmem]⟩
    · exact ⟨x, List.mem_cons_self x xs, hx, by simp [updateFirst, hx]⟩

theorem filter_eq_length_le_one {β : Type} [DecidableEq β] (g : α → β) (v : β)
    (l : List α) (h : (l.map g).Nodup) :
    (l.filter (fun x => g x = v)).length ≤ 1 := by
  induction l with
  | nil => simp
  | cons x xs ih =>
    simp only [List.map_cons, List.nodup_cons] at h
    by_cases hx : g x = v
    · have hnil : xs.filter (fun y => decide (g y = v)) = [] := by
        rw [List.filter_eq_nil_iff]
        intro a ha
        simp only [decide_eq_true_eq]
        intro hav
        exact h.1 (by rw [hx, ← hav]; exact List.mem_map_of_mem g ha)
      simp [List.filter_cons, hx, hnil]
    · simp only [List.filter_cons, decide_eq_true_eq, hx, if_false]
      exact ih h.2

/-! ### Facts about the bridge upsert -/

theorem applyBridgePayload_id (p : BridgeCreatePayload) (b : BridgeDB) :
    (applyBridgePayload p b).id = b.id := by
  simp only [applyBridgePayload]
  cases truthyStr p.image_data <;> simp

theorem applyBridgePayload_fields (p : BridgeCreatePayload) (b : BridgeDB) :
    (applyBridgePayload p b).name = p.name ∧
    (applyBridgePayload p b).region = p.location.region ∧
    (applyBridgePayload p b).lat = p.location.lat ∧
    (applyBridgePayload p b).lng = p.location.lng := by
  simp only [applyBridgePayload]
  cases truthyStr p.image_data <;> simp

theorem applyBridgePayload_mkBridge (p : BridgeCreatePayload) (bid : String) :
    applyBridgePayload p (mkBridge bid p) = mkBridge bid p := by
  simp only [applyBridgePayload, mkBridge]
  cases truthyStr p.image_data <;> simp

theorem applyBridgePayload_idem (p : BridgeCreatePayload) (b : BridgeDB) :
    applyBridgePayload p (applyBridgePayload p b) = applyBridgePayload p b := by
  simp only [applyBridgePayload]
  cases truthyStr p.image_data <;> simp

theorem create_or_update_bridge_def (p : BridgeCreatePayload) (db : DB) :
    create_or_update_bridge p db =
      if db.bridges.any (fun b => b.id = resolveBridgeId p) then
        { db with bridges := updateFirst (fun b => b.id = resolveBridgeId p)
                               (applyBridgePayload p) db.bridges }
      else { db with bridges := db.bridges ++ [mkBridge (resolveBridgeId p) p] } := rfl

theorem create_or_update_bridge_pos (p : BridgeCreatePayload) (db : DB)
    (h : db.bridges.any (fun b => b.id = resolveBridgeId p) = true) :
    create_or_update_bridge p db =
      { db with bridges := updateFirst (fun b => b.id = resolveBridgeId p)
                             (applyBridgePayload p) db.bridges } := by
  rw [create_or_update_bridge_def, if_pos h]

theorem create_or_update_bridge_neg (p : BridgeCreatePayload) (db : DB)
    (h : db.bridges.any (fun b => b.id = resolveBridgeId p) = false) :
    create_or_update_bridge p db =
      { db with bridges := db.bridges ++ [mkBridge (resolveBridgeId p) p] } := by
  rw [create_or_update_bridge_def, if_neg]
  simp [h]

theorem q_applyBridgePayload (p : BridgeCreatePayload) (bid : String) (x : BridgeDB) :
    decide ((applyBridgePayload p x).id = bid) = decide (x.id = bid) := by
  rw [applyBridgePayload_id]

/-- **C5.** `POST /admin/bridge` is an idempotent upsert: with the resolved id
`resolveBridgeId p` (the payload id when truthy, else the id generated from the
name), a new bridge row is created when no row with that id exists; otherwise
the existing row's `name`, `region`, `lat` and `lng` are overwritten from the
payload; posting the same payload twice leaves the database in the same state
as posting it once; and afterwards exactly one bridge row has the resolved id. -/
theorem create_or_update_bridge_idempotent_upsert
    (p : BridgeCreatePayload) (db : DB)
    (hnd : (db.bridges.map BridgeDB.id).Nodup) :
    ((∀ b ∈ db.bridges, ¬ b.id = resolveBridgeId p) →
      (create_or_update_bridge p db).bridges
        = db.bridges ++ [mkBridge (resolveBridgeId p) p]) ∧
    ((∃ b ∈ db.bridges, b.id = resolveBridgeId p) →
      ∃ b0 ∈ db.bridges, b0.id = resolveBridgeId p ∧
        applyBridgePayload p b0 ∈ (create_or_update_bridge p db).bridges ∧
        (applyBridgePayload p b0).name = p.name ∧
        (applyBridgePayload p b0).region = p.location.region ∧
        (applyBridgePayload p b0).lat = p.location.lat ∧
        (applyBridgePayload p b0).lng = p.location.lng) ∧
    create_or_update_bridge p (create_or_update_bridge p db)
      = create_or_update_bridge p db ∧
    ((create_or_update_bridge p db).bridges.filter
        (fun b => b.id = resolveBridgeId p)).length = 1 := by
  refine ⟨?_, ?_, ?_, ?_⟩
  · intro hall
    have hany : db.bridges.any (fun b => b.id = resolveBridgeId p) = false := by
      rw [List.any_eq_false]
      intro b hb
      simpa using hall b hb
    rw [create_or_update_bridge_neg p db hany]
  · rintro ⟨b, hb, hbid⟩
    have hany : db.bridges.any (fun b => b.id = resolveBridgeId p) = true := by
      rw [List.any_eq_true]
      exact ⟨b, hb, by simp [hbid]⟩
    obtain ⟨b0, hb0, hqb0, hmem⟩ :=
      exists_mem_updateFirst _ (applyBridgePayload p) _ hany
    obtain ⟨h1, h2, h3, h4⟩ := applyBridgePayload_fields p b0
    refine ⟨b0, hb0, by simpa using hqb0, ?_, h1, h2, h3, h4⟩
    rw [create_or_update_bridge_pos p db hany]
    exact hmem
  · cases hany : db.bridges.any (fun b => b.id = resolveBridgeId p)
    · rw [create_or_update_bridge_neg p db hany]
      have hany2 : (db.bridges ++ [mkBridge (resolveBridgeId p) p]).any
          (fun b => b.id = resolveBridgeId p) = true := by
        rw [List.any_append]
        simp [mkBridge]
      rw [create_or_update_bridge_pos p _ hany2]
      simp only [DB.mk.injEq, and_true, true_and]
      show updateFirst _ _ (db.bridges ++ [mkBridge (resolveBridgeId p) p]) = _
      rw [updateFirst_append_left _ _ _ _
        (fun x hx => Bool.eq_false_iff.mpr (List.any_eq_false.mp hany x hx))]
      have hfix := applyBridgePayload_mkBridge p (resolveBridgeId p)
      simp only [mkBridge] at hfix
      simp [updateFirst, mkBridge, hfix]
    · rw [create_or_update_bridge_pos p db hany]
      have hany2 : (updateFirst (fun b => b.id = resolveBridgeId p)
          (applyBridgePayload p) db.bridges).any
          (fun b => b.id = resolveBridgeId p) = true := by
        rw [any_updateFirst _ _ _ (fun x => q_applyBridgePayload p _ x)]
        exact hany
      rw [create_or_update_bridge_pos p _ hany2]
      simp only [DB.mk.injEq, and_true, true_and]
      exact updateFirst_idem _ _ _ (fun x => q_applyBridgePayload p _ x)
        (fun x _ => applyBridgePayload_idem p x)
  · cases hany : db.bridges.any (fun b => b.id = resolveBridgeId p)
    · rw [create_or_update_bridge_neg p db hany]
      show ((db.bridges ++ [mkBridge (resolveBridgeId p) p]).filter _).length = 1
      rw [List.filter_append]
      have hnil : db.bridges.filter (fun b => b.id = resolveBridgeId p) = [] := by
        rw [List.filter_eq_nil_iff]
        intro b hb
        have := List.any_eq_false.mp hany b hb
        simp_all
      simp [hnil, mkBridge]
    · rw [create_or_update_bridge_pos p db hany]
      show ((updateFirst _ _ db.bridges).filter _).length = 1
      rw [filter_length_updateFirst _ _ _ (fun x => q_applyBridgePayload p _ x)]
      have hle := filter_eq_length_le_one BridgeDB.id (resolveBridgeId p)
        db.bridges hnd
      have hne : db.bridges.filter (fun b => b.id = resolveBridgeId p) ≠ [] := by
        obtain ⟨b, hb, hqb⟩ := List.any_eq_true.mp hany
        intro hnil
        have := List.filter_eq_nil_iff.mp hnil b hb
        simp_all
      have hpos : 0 < (db.bridges.filter
          (fun b => b.id = resolveBridgeId p)).length :=
        List.length_pos.mpr hne
      omega

theorem exists_resolved_id_mem (p : BridgeCreatePayload) (db : DB) :
    ∃ b ∈ (create_or_update_bridge p db).bridges, b.id = resolveBridgeId p := by
  cases hany : db.bridges.any (fun b => b.id = resolveBridgeId p)
  · rw [create_or_update_bridge_neg p db hany]
    exact ⟨mkBridge (resolveBridgeId p) p, by simp, rfl⟩
  · rw [create_or_update_bridge_pos p db hany]
    obtain ⟨b0, hb0, hq, hmem⟩ :=
      exists_mem_updateFirst _ (applyBridgePayload p) _ hany
    exact ⟨applyBridgePayload p b0, hmem,
      by rw [applyBridgePayload_id]; simpa using hq⟩

/-- **C10.** `generate_bridge_id` is the deterministic function
`name ↦ "br-" ++` (first 8 alphanumeric characters of the name, lowercased);
two names agreeing on their first 8 alphanumeric characters
case-insensitively resolve (absent an explicit payload id) to the same
bridge id, so the second `POST /admin/bridge` overwrites the first bridge's
fields instead of creating a second row. -/
theorem generate_bridge_id_collision_overwrites
    (p1 p2 : BridgeCreatePayload) (db : DB)
    (h1 : p1.id = none) (h2 : p2.id = none)
    (hagree : ((p1.name.data.filter Char.isAlphanum).take 8).map Char.toLower
            = ((p2.name.data.filter Char.isAlphanum).take 8).map Char.toLower) :
    (∀ name : String, generate_bridge_id name =
      "br-" ++ String.mk
        (((name.data.filter Char.isAlphanum).take 8).map Char.toLower)) ∧
    generate_bridge_id p1.name = generate_bridge_id p2.name ∧
    resolveBridgeId p1 = resolveBridgeId p2 ∧
    (create_or_update_bridge p2 (create_or_update_bridge p1 db)).bridges.length
      = (create_or_update_bridge p1 db).bridges.length ∧
    ∃ b ∈ (create_or_update_bridge p2 (create_or_update_bridge p1 db)).bridges,
      b.id = resolveBridgeId p1 ∧ b.name = p2.name ∧
      b.region = p2.location.region ∧ b.lat = p2.location.lat ∧
      b.lng = p2.location.lng := by
  have hgen : ∀ name : String, generate_bridge_id name =
      "br-" ++ String.mk
        (((name.data.filter Char.isAlphanum).take 8).map Char.toLower) := by
    intro name
    simp only [generate_bridge_id]
    rw [List.map_take]
  have hsame : generate_bridge_id p1.name = generate_bridge_id p2.name := by
    rw [hgen, hgen, hagree]
  have hres : resolveBridgeId p1 = resolveBridgeId p2 := by
    simp only [resolveBridgeId, h1, h2, hsame]
  have hex := exists_resolved_id_mem p1 db
  have hany2 : (create_or_update_bridge p1 db).bridges.any
      (fun b => b.id = resolveBridgeId p2) = true := by
    rw [List.any_eq_true]
    obtain ⟨b, hb, hbid⟩ := hex
    exact ⟨b, hb, by simp [hbid, hres]⟩
  refine ⟨hgen, hsame, hres, ?_, ?_⟩
  · rw [create_or_update_bridge_pos p2 _ hany2]
    exact length_updateFirst _ _ _
  · rw [create_or_update_bridge_pos p2 _ hany2]
    obtain ⟨b0, hb0, hq, hmem⟩ :=
      exists_mem_updateFirst _ (applyBridgePayload p2) _ hany2
    obtain ⟨f1, f2, f3, f4⟩ := applyBridgePayload_fields p2 b0
    refine ⟨applyBridgePayload p2 b0, hmem, ?_, f1, f2, f3, f4⟩
    rw [applyBridgePayload_id, hres]
    simpa using hq

/-- **C4.** For an existing bridge id, `DELETE /admin/bridge/{bridge_id}`
removes the bridge with its sensors, those sensors' measurements and its
KPI rows, leaving everything else unchanged; for an existing sensor id,
`DELETE /admin/sensor/{sensor_id}` removes the sensor and its measurements
and changes nothing else. -/
theorem delete_bridge_sensor_cascade (db : DB) (bid sid : String)
    (hb : ∃ b ∈ db.bridges, b.id = bid) (hs : ∃ s ∈ db.sensors, s.id = sid) :
    (∃ db1, delete_bridge bid db = some db1 ∧
      (∀ b : BridgeDB, b ∈ db1.bridges ↔ b ∈ db.bridges ∧ ¬ b.id = bid) ∧
      (∀ s : SensorDB, s ∈ db1.sensors ↔ s ∈ db.sensors ∧ ¬ s.bridge_id = bid) ∧
      (∀ m : MeasurementDB, m ∈ db1.measurements ↔ m ∈ db.measurements ∧
        ¬ ∃ s ∈ db.sensors, s.bridge_id = bid ∧ s.id = m.sensor_id) ∧
      (∀ k : KpiDB, k ∈ db1.kpis ↔ k ∈ db.kpis ∧ ¬ k.bridge_id = bid)) ∧
    (∃ db2, delete_sensor sid db = some db2 ∧
      db2.bridges = db.bridges ∧ db2.kpis = db.kpis ∧
      (∀ s : SensorDB, s ∈ db2.sensors ↔ s ∈ db.sensors ∧ ¬ s.id = sid) ∧
      (∀ m : MeasurementDB, m ∈ db2.measurements ↔ m ∈ db.measurements ∧
        ¬ m.sensor_id = sid)) := by
  obtain ⟨b, hbmem, hbid⟩ := hb
  obtain ⟨s, hsmem, hsid⟩ := hs
  have hanyb : db.bridges.any (fun x => x.id = bid) = true :=
    List.any_eq_true.mpr ⟨b, hbmem, by simp [hbid]⟩
  have hanys : db.sensors.any (fun x => x.id = sid) = true :=
    List.any_eq_true.mpr ⟨s, hsmem, by simp [hsid]⟩
  constructor
  · refine ⟨_, by rw [delete_bridge, if_pos hanyb], ?_, ?_, ?_, ?_⟩
    · intro x
      simp [List.mem_filter]
    · intro x
      simp [List.mem_filter]
    · intro x
      simp [List.mem_filter]
    · intro x
      simp [List.mem_filter]
  · have hds : delete_sensor sid db = some { db with
        sensors := (db.sensors.filter (fun s => ¬ s.id = sid)),
        measurements := (db.measurements.filter (fun m => ¬ m.sensor_id = sid)) } := by
      rw [delete_sensor, if_pos hanys]
    refine ⟨_, hds, rfl, rfl, ?_, ?_⟩
    · intro x
      simp [List.mem_filter]
    · intro x
      simp [List.mem_filter]

/-! ### Concrete inputs for the witnesses -/

def c5Payload : BridgeCreatePayload :=
  { name := "Puente Real", location := { region := "Cusco", lat := 10, lng := 20 } }

def c5DB : DB :=
  { bridges := [{ id := "br-puentere", name := "old", region := "r", lat := 0, lng := 0 }] }

/-- Witness for the C5 theorem at a concrete payload and database. -/
theorem create_or_update_bridge_idempotent_upsert_witness :
    (c5DB.bridges.map BridgeDB.id).Nodup ∧
    (((∀ b ∈ c5DB.bridges, ¬ b.id = resolveBridgeId c5Payload) →
      (create_or_update_bridge c5Payload c5DB).bridges
        = c5DB.bridges ++ [mkBridge (resolveBridgeId c5Payload) c5Payload]) ∧
    ((∃ b ∈ c5DB.bridges, b.id = resolveBridgeId c5Payload) →
      ∃ b0 ∈ c5DB.bridges, b0.id = resolveBridgeId c5Payload ∧
        applyBridgePayload c5Payload b0
          ∈ (create_or_update_bridge c5Payload c5DB).bridges ∧
        (applyBridgePayload c5Payload b0).name = c5Payload.name ∧
        (applyBridgePayload c5Payload b0).region = c5Payload.location.region ∧
        (applyBridgePayload c5Payload b0).lat = c5Payload.location.lat ∧
        (applyBridgePayload c5Payload b0).lng = c5Payload.location.lng) ∧
    create_or_update_bridge c5Payload (create_or_update_bridge c5Payload c5DB)
      = create_or_update_bridge c5Payload c5DB ∧
    ((create_or_update_bridge c5Payload c5DB).bridges.filter
        (fun b => b.id = resolveBridgeId c5Payload)).length = 1) :=
  ⟨by decide, create_or_update_bridge_idempotent_upsert c5Payload c5DB (by decide)⟩

def c10P1 : BridgeCreatePayload :=
  { name := "Puente Real 9", location := { region := "Cusco", lat := 1, lng := 2 } }

def c10P2 : BridgeCreatePayload :=
  { name := "PUENTEREAL99x", location := { region := "Lima", lat := 3, lng := 4 } }

/-- Witness for the C10 theorem: two names whose first 8 alphanumeric
characters agree case-insensitively, posted to an empty database. -/
theorem generate_bridge_id_collision_overwrites_witness :
    c10P1.id = none ∧ c10P2.id = none ∧
    ((c10P1.name.data.filter Char.isAlphanum).take 8).map Char.toLower
      = ((c10P2.name.data.filter Char.isAlphanum).take 8).map Char.toLower ∧
    ((∀ name : String, generate_bridge_id name =
      "br-" ++ String.mk
        (((name.data.filter Char.isAlphanum).take 8).map Char.toLower)) ∧
    generate_bridge_id c10P1.name = generate_bridge_id c10P2.name ∧
    resolveBridgeId c10P1 = resolveBridgeId c10P2 ∧
    (create_or_update_bridge c10P2 (create_or_update_bridge c10P1 {})).bridges.length
      = (create_or_update_bridge c10P1 ({} : DB)).bridges.length ∧
    ∃ b ∈ (create_or_update_bridge c10P2
        (create_or_update_bridge c10P1 {})).bridges,
      b.id = resolveBridgeId c10P1 ∧ b.name = c10P2.name ∧
      b.region = c10P2.location.region ∧ b.lat = c10P2.location.lat ∧
      b.lng = c10P2.location.lng) :=
  ⟨rfl, rfl, by decide,
    generate_bridge_id_collision_overwrites c10P1 c10P2 {} rfl rfl (by decide)⟩

def c4DB : DB :=
  { bridges := [{ id := "b1", name := "B1", region := "r", lat := 0, lng := 0 },
                { id := "b2", name := "B2", region := "r", lat := 0, lng := 0 }],
    sensors := [{ id := "s1", bridge_id := "b1", «alias» := "a", pos_x := 0, pos_y := 0 },
                { id := "s2", bridge_id := "b2", «alias» := "b", pos_x := 0, pos_y := 0 }],
    measurements := [{ ts := 1, sensor_id := "s1", acc_x := 1, acc_y := 2, acc_z := 3, temp := 4 },
                     { ts := 2, sensor_id := "s2", acc_x := 5, acc_y := 6, acc_z := 7, temp := 8 }],
    kpis := [{ id := 1, timestamp := 5, bridge_id := "b1", kpi_type := "structuralHealth" },
             { id := 2, timestamp := 6, bridge_id := "b2", kpi_type := "structuralHealth" }] }

/-- Witness for the C4 theorem on a two-bridge, two-sensor database. -/
theorem delete_bridge_sensor_cascade_witness :
    (∃ b ∈ c4DB.bridges, b.id = "b1") ∧ (∃ s ∈ c4DB.sensors, s.id = "s1") ∧
    ((∃ db1, delete_bridge "b1" c4DB = some db1 ∧
      (∀ b : BridgeDB, b ∈ db1.bridges ↔ b ∈ c4DB.bridges ∧ ¬ b.id = "b1") ∧
      (∀ s : SensorDB, s ∈ db1.sensors ↔ s ∈ c4DB.sensors ∧ ¬ s.bridge_id = "b1") ∧
      (∀ m : MeasurementDB, m ∈ db1.measurements ↔ m ∈ c4DB.measurements ∧
        ¬ ∃ s ∈ c4DB.sensors, s.bridge_id = "b1" ∧ s.id = m.sensor_id) ∧
      (∀ k : KpiDB, k ∈ db1.kpis ↔ k ∈ c4DB.kpis ∧ ¬ k.bridge_id = "b1")) ∧
    (∃ db2, delete_sensor "s1" c4DB = some db2 ∧
      db2.bridges = c4DB.bridges ∧ db2.kpis = c4DB.kpis ∧
      (∀ s : SensorDB, s ∈ db2.sensors ↔ s ∈ c4DB.sensors ∧ ¬ s.id = "s1") ∧
      (∀ m : MeasurementDB, m ∈ db2.measurements ↔ m ∈ c4DB.measurements ∧
        ¬ m.sensor_id = "s1"))) :=
  ⟨⟨{ id := "b1", name := "B1", region := "r", lat := 0, lng := 0 }, by decide, rfl⟩,
   ⟨{ id := "s1", bridge_id := "b1", «alias» := "a", pos_x := 0, pos_y := 0 }, by decide, rfl⟩,
   delete_bridge_sensor_cascade c4DB "b1" "s1"
     ⟨{ id := "b1", name := "B1", region := "r", lat := 0, lng := 0 }, by decide, rfl⟩
     ⟨{ id := "s1", bridge_id := "b1", «alias» := "a", pos_x := 0, pos_y := 0 }, by decide, rfl⟩⟩

/-! ### Sort orders used by the queries -/

/-- `ORDER BY ts` ascending on measurements (main.py line 491). -/
def measTsLe (a b : MeasurementDB) : Prop := a.ts ≤ b.ts

instance : DecidableRel measTsLe :=
  fun a b => inferInstanceAs (Decidable (a.ts ≤ b.ts))

instance : IsTotal MeasurementDB measTsLe :=
  ⟨fun a b => Int.le_total a.ts b.ts⟩

instance : IsTrans MeasurementDB measTsLe :=
  ⟨fun _ _ _ hab hbc => Int.le_trans hab hbc⟩

/-- `ORDER BY desc(ts)` on measurements (lines 339, 407). -/
def measTsGe (a b : MeasurementDB) : Prop := b.ts ≤ a.ts

instance : DecidableRel measTsGe :=
  fun a b => inferInstanceAs (Decidable (b.ts ≤ a.ts))

instance : IsTotal MeasurementDB measTsGe :=
  ⟨fun a b => Int.le_total b.ts a.ts⟩

instance : IsTrans MeasurementDB measTsGe :=
  ⟨fun _ _ _ hab hbc => Int.le_trans hbc hab⟩

/-- `ORDER BY desc(timestamp)` on KPI rows (lines 295, 445). -/
def kpiTsGe (a b : KpiDB) : Prop := b.timestamp ≤ a.timestamp

instance : DecidableRel kpiTsGe :=
  fun a b => inferInstanceAs (Decidable (b.timestamp ≤ a.timestamp))

instance : IsTotal KpiDB kpiTsGe :=
  ⟨fun a b => Int.le_total b.timestamp a.timestamp⟩

instance : IsTrans KpiDB kpiTsGe :=
  ⟨fun _ _ _ hab hbc => Int.le_trans hbc hab⟩

/-! ### The CSV export endpoint (`/export/csv`, main.py lines 461-514) -/

/-- `start.replace(" ", "T")` (line 471): every space becomes `T`. -/
def cleanDate (s : String) : String :=
  String.mk (s.data.map (fun c => if c = ' ' then 'T' else c))

/-- The SQL query of `export_csv` (lines 487-491): rows of the given sensor
with `start_dt <= ts <= end_dt`, `ORDER BY ts` ascending. -/
def exportQuery (db : DB) (id : String) (start_dt end_dt : Int) :
    List MeasurementDB :=
  List.insertionSort measTsLe
    (db.measurements.filter
      (fun m => m.sensor_id = id ∧ start_dt ≤ m.ts ∧ m.ts ≤ end_dt))

/-- Optional `battery`/`rssi` fields render as `""` when `NULL` (lines 503-504). -/
def optField : Option Int → String
  | none => ""
  | some v => toString v

/-- The header line yielded first by `iter_csv` (line 496). -/
def csvHeader : String := "Timestamp,Accel_X(g),Accel_Y(g),Accel_Z(g),Battery(%),RSSI(dBm)\n"

/-- The f-string of line 505, one CSV line per row. -/
def csvLine (m : MeasurementDB) : String :=
  toString m.ts ++ "," ++ toString m.acc_x ++ "," ++ toString m.acc_y ++ ","
    ++ toString m.acc_z ++ "," ++ optField m.battery ++ ","
    ++ optField m.rssi ++ "\n"

/-- `iter_csv` (lines 494-507): the header line, then one line per row of
the query result. -/
def iter_csv (rows : List MeasurementDB) : List String :=
  csvHeader :: rows.map csvLine

/-- A Python runtime error surfaced by a handler. -/
inductive PyError
  | nameError (n : String)
  deriving DecidableEq, Repr

/-- The names bound at module level in `main.py` (imports of lines 1-16 and
the module-level definitions).  `JSONResponse` is referenced at line 482 but
is bound by none of the imports. -/
def module_level_names : List String :=
  ["os", "random", "math", "io", "datetime", "timedelta", "List", "Optional",
   "FastAPI", "Query", "HTTPException", "Depends", "CORSMiddleware",
   "StreamingResponse", "BaseModel", "create_engine", "Column", "String",
   "Integer", "Float", "ForeignKey", "Text", "DateTime", "func", "desc",
   "declarative_base", "sessionmaker", "Session", "relationship", "app",
   "DATABASE_URL", "engine", "SessionLocal", "Base", "BridgeDB", "SensorDB",
   "MeasurementDB", "KpiDB", "get_db", "BridgeInfo", "SensorConfig",
   "BridgeCreatePayload", "SensorCreatePayload", "generate_bridge_id",
   "create_or_update_bridge", "create_or_update_sensor", "delete_bridge",
   "delete_sensor", "get_dashboard_data", "get_trend_summary", "export_csv"]

/-- `GET /export/csv` = `export_csv` (lines 461-514), parameterized by the
ISO-8601 parser `fromisoformat` (parsed timestamps abstracted to `Int`,
`none` = `ValueError`).  On parse failure the `except` branch (line 482)
evaluates the global name `JSONResponse`; a name absent from the module
namespace raises `NameError`. -/
def export_csv (fromisoformat : String → Option Int) (db : DB)
    (id start_s end_s : String) : Except PyError (List String) :=
  match fromisoformat (cleanDate start_s), fromisoformat (cleanDate end_s) with
  | some start_dt, some end_dt =>
      .ok (iter_csv (exportQuery db id start_dt end_dt))
  | _, _ =>
      if module_level_names.contains "JSONResponse" then
        .ok ["Formato de fecha invalido. Use ISO 8601."]
      else .error (.nameError "JSONResponse")

/-- **C1.** When `start` and `end` parse, the response body is exactly the
header line followed by one CSV line per stored measurement of the sensor
with `start <= ts <= end`; the data rows are a permutation of exactly those
rows, ordered by ascending timestamp, and each line renders the row's
`ts`, `acc_x`, `acc_y`, `acc_z`, `battery` and `rssi` (empty when null). -/
theorem export_csv_body (fromisoformat : String → Option Int) (db : DB)
    (id start_s end_s : String) (start_dt end_dt : Int)
    (h1 : fromisoformat (cleanDate start_s) = some start_dt)
    (h2 : fromisoformat (cleanDate end_s) = some end_dt) :
    export_csv fromisoformat db id start_s end_s
      = .ok (csvHeader :: (exportQuery db id start_dt end_dt).map csvLine) ∧
    (exportQuery db id start_dt end_dt).Perm
      (db.measurements.filter
        (fun m => m.sensor_id = id ∧ start_dt ≤ m.ts ∧ m.ts ≤ end_dt)) ∧
    List.Sorted measTsLe (exportQuery db id start_dt end_dt) ∧
    ∀ m ∈ exportQuery db id start_dt end_dt,
      csvLine m = toString m.ts ++ "," ++ toString m.acc_x ++ ","
        ++ toString m.acc_y ++ "," ++ toString m.acc_z ++ ","
        ++ optField m.battery ++ "," ++ optField m.rssi ++ "\n" := by
  refine ⟨?_, ?_, ?_, ?_⟩
  · rw [export_csv, h1, h2]
    rfl
  · exact List.perm_insertionSort measTsLe _
  · exact List.sorted_insertionSort measTsLe _
  · intro m _
    rfl

def c1Parse : String → Option Int := fun s =>
  if s = "2024-01-01T00:00:00" then some 100
  else if s = "2024-01-02T00:00:00" then some 200 else none

def c1DB : DB :=
  { measurements :=
      [{ ts := 150, sensor_id := "s1", acc_x := 1, acc_y := 2, acc_z := 3, temp := 4,
         battery := some 95, rssi := none },
       { ts := 120, sensor_id := "s1", acc_x := 5, acc_y := 6, acc_z := 7, temp := 8 },
       { ts := 50, sensor_id := "s1", acc_x := 0, acc_y := 0, acc_z := 0, temp := 0 },
       { ts := 130, sensor_id := "s2", acc_x := 9, acc_y := 9, acc_z := 9, temp := 9 }] }

/-- Witness for the C1 theorem: a concrete parser, request and database
(the `start` string uses a space, exercising the `replace(" ", "T")`). -/
theorem export_csv_body_witness :
    c1Parse (cleanDate "2024-01-01 00:00:00") = some 100 ∧
    c1Parse (cleanDate "2024-01-02 00:00:00") = some 200 ∧
    (export_csv c1Parse c1DB "s1" "2024-01-01 00:00:00" "2024-01-02 00:00:00"
      = .ok (csvHeader :: (exportQuery c1DB "s1" 100 200).map csvLine) ∧
    (exportQuery c1DB "s1" 100 200).Perm
      (c1DB.measurements.filter
        (fun m => m.sensor_id = "s1" ∧ 100 ≤ m.ts ∧ m.ts ≤ 200)) ∧
    List.Sorted measTsLe (exportQuery c1DB "s1" 100 200) ∧
    ∀ m ∈ exportQuery c1DB "s1" 100 200,
      csvLine m = toString m.ts ++ "," ++ toString m.acc_x ++ ","
        ++ toString m.acc_y ++ "," ++ toString m.acc_z ++ ","
        ++ optField m.battery ++ "," ++ optField m.rssi ++ "\n") :=
  ⟨by decide, by decide,
    export_csv_body c1Parse c1DB "s1" "2024-01-01 00:00:00"
      "2024-01-02 00:00:00" 100 200 (by decide) (by decide)⟩

/-- **C9.** When `start` or `end` (after space-to-`T` cleanup) fails to
parse, the handler does not produce the intended 400 response: the `except`
branch evaluates `JSONResponse`, which is not among the module-level names,
so an unhandled `NameError` is raised. -/
theorem export_csv_bad_date_name_error (fromisoformat : String → Option Int)
    (db : DB) (id start_s end_s : String)
    (h : fromisoformat (cleanDate start_s) = none ∨
         fromisoformat (cleanDate end_s) = none) :
    export_csv fromisoformat db id start_s end_s
      = .error (.nameError "JSONResponse") := by
  have hc : module_level_names.contains "JSONResponse" = false := by decide
  cases h1 : fromisoformat (cleanDate start_s) with
  | none => rw [export_csv, h1]; rw [if_neg (by decide)]
  | some s =>
    cases h2 : fromisoformat (cleanDate end_s) with
    | none => rw [export_csv, h1, h2]; rw [if_neg (by decide)]
    | some e => rcases h with h | h <;> simp_all

/-- Witness for the C9 theorem at a concrete failing request. -/
theorem export_csv_bad_date_name_error_witness :
    (c1Parse (cleanDate "not-a-date") = none ∨
     c1Parse (cleanDate "2024-01-02 00:00:00") = none) ∧
    export_csv c1Parse c1DB "s1" "not-a-date" "2024-01-02 00:00:00"
      = .error (.nameError "JSONResponse") :=
  ⟨Or.inl (by decide),
    export_csv_bad_date_name_error c1Parse c1DB "s1" "not-a-date"
      "2024-01-02 00:00:00" (Or.inl (by decide))⟩

/-- Number of data lines (excluding the header line) of a successful export. -/
def exportDataRowCount (db : DB) (id : String) (start_dt end_dt : Int) : Nat :=
  (exportQuery db id start_dt end_dt).length

def c6Measurements : List MeasurementDB :=
  (List.range 720001).map (fun (i : Nat) =>
    { ts := (i : Int), sensor_id := "s1", acc_x := 0, acc_y := 0, acc_z := 0,
      temp := 0 })

def c6DB : DB := { measurements := c6Measurements }

theorem c6DB_measurements : c6DB.measurements = c6Measurements := by
  rw [c6DB]

set_option maxRecDepth 4000 in
/-- Counterexample to C6 as stated: a database holding
720001 measurements of one sensor inside the requested range makes the
export emit 720001 data rows, exceeding 3600 × 200 = 720000 — the code
never caps the row count. -/
theorem export_csv_row_bound_counterexample :
    exportDataRowCount c6DB "s1" 0 720000 = 720001 ∧
    3600 * 200 < exportDataRowCount c6DB "s1" 0 720000 := by
  have hlen : exportDataRowCount c6DB "s1" 0 720000 = 720001 := by
    unfold exportDataRowCount exportQuery
    rw [List.length_insertionSort]
    have hself : c6DB.measurements.filter
        (fun m => m.sensor_id = "s1" ∧ 0 ≤ m.ts ∧ m.ts ≤ 720000)
        = c6DB.measurements := by
      rw [List.filter_eq_self]
      intro m hm
      rw [c6DB_measurements, c6Measurements, List.mem_map] at hm
      obtain ⟨i, hi, rfl⟩ := hm
      rw [List.mem_range] at hi
      simp only [decide_eq_true_eq]
      refine ⟨trivial, ?_, ?_⟩
      · show (0 : Int) ≤ (i : Int)
        omega
      · show (i : Int) ≤ 720000
        omega
    rw [hself, c6DB_measurements, c6Measurements, List.length_map,
      List.length_range]
  exact ⟨hlen, by omega⟩

/-- **C6 (amended).** The number of data rows emitted by `/export/csv`
equals the number of stored measurements of the sensor inside the closed
range; no fixed bound (such as 720000) applies. -/
theorem export_csv_row_count (db : DB) (id : String) (start_dt end_dt : Int) :
    exportDataRowCount db id start_dt end_dt
      = (db.measurements.filter
          (fun m => m.sensor_id = id ∧ start_dt ≤ m.ts ∧ m.ts ≤ end_dt)).length := by
  unfold exportDataRowCount exportQuery
  exact List.length_insertionSort _ _

/-! ### The trend endpoint (`/summary/{resource_id}`, main.py lines 396-459) -/

/-- One chart point: sensor measurements give an `x`,`y`,`z` triple, KPI rows
a scalar; the `strftime("%H:%M")` label is abstracted to the timestamp. -/
inductive TrendPoint
  | sensor (t : Int) (x y z : Int)
  | kpi (t : Int) (v : Int)
  deriving DecidableEq, Repr

/-- `known_kpi_types` (line 427). -/
def known_kpi_types : List String :=
  ["structuralHealth", "accelGlob", "accelX", "accelY", "aiAnalysis",
   "naturalFreq"]

/-- Python `resource_id.endswith(suffix)` (line 434), character-level. -/
def strEndsWith (s suffix : String) : Bool :=
  suffix.data.isSuffixOf s.data

/-- Python `resource_id[:-n]` for `n > 0` (line 437): drop the last `n`
characters. -/
def strDropRight (s : String) (n : Nat) : String :=
  String.mk (s.data.take (s.data.length - n))

/-- The suffix scan of lines 432-438: the first known KPI type whose
`-`-prefixed suffix ends the resource id, paired with the resource id with
that suffix stripped. -/
def findKpiSuffix (resource_id : String) : Option (String × String) :=
  known_kpi_types.findSome? (fun k =>
    if strEndsWith resource_id ("-" ++ k) then
      some (strDropRight resource_id (k.length + 1), k)
    else none)

/-- Sensor-branch query (lines 405-407): the sensor's measurements,
`ORDER BY desc(ts)`, `LIMIT 144`. -/
def trendMeasurements (db : DB) (resource_id : String) : List MeasurementDB :=
  (List.insertionSort measTsGe
    (db.measurements.filter (fun m => m.sensor_id = resource_id))).take 144

/-- KPI-branch query (lines 442-445): the bridge's KPI rows of the target
type, `ORDER BY desc(timestamp)`, `LIMIT 144`. -/
def trendKpis (db : DB) (bid ktype : String) : List KpiDB :=
  (List.insertionSort kpiTsGe
    (db.kpis.filter (fun k => k.bridge_id = bid ∧ k.kpi_type = ktype))).take 144

/-- A sensor chart point (lines 412-419). -/
def sensorPoint (m : MeasurementDB) : TrendPoint :=
  .sensor m.ts m.acc_x m.acc_y m.acc_z

/-- A KPI chart point (lines 449-455): `aiAnalysis` charts `confidence`,
anything else `value`; `None` renders as `0`. -/
def kpiPoint (ktype : String) (k : KpiDB) : TrendPoint :=
  .kpi k.timestamp
    ((if ktype = "aiAnalysis" then k.confidence else k.value).getD 0)

/-- `GET /summary/{resource_id}` = `get_trend_summary` (lines 396-459).
An empty stripped bridge id is falsy at line 440, so it falls through to
the final `return []`. -/
def get_trend_summary (db : DB) (resource_id : String) : List TrendPoint :=
  if trendMeasurements db resource_id ≠ [] then
    (trendMeasurements db resource_id).reverse.map sensorPoint
  else
    match findKpiSuffix resource_id with
    | some (target_bridge_id, target_type) =>
        if target_bridge_id ≠ "" then
          (trendKpis db target_bridge_id target_type).reverse.map
            (kpiPoint target_type)
        else []
    | none => []

/-! ### Generic facts about `LIMIT n` on a sorted query -/

theorem sorted_take_drop {α : Type} (r : α → α → Prop) (l : List α) (n : Nat)
    (h : List.Pairwise r l) :
    ∀ x ∈ l.take n, ∀ y ∈ l.drop n, r x y := by
  have h2 : List.Pairwise r (l.take n ++ l.drop n) := by
    rw [List.take_append_drop]
    exact h
  exact (List.pairwise_append.mp h2).2.2

theorem recent_take_length {α : Type} (r : α → α → Prop) [DecidableRel r]
    (rows : List α) (n : Nat) :
    ((List.insertionSort r rows).take n).length = min n rows.length := by
  rw [List.length_take, List.length_insertionSort]

theorem recent_take_mem {α : Type} (r : α → α → Prop) [DecidableRel r]
    (rows : List α) (n : Nat) :
    ∀ x ∈ (List.insertionSort r rows).take n, x ∈ rows := by
  intro x hx
  exact (List.mem_insertionSort r).mp ((List.take_sublist n _).subset hx)

theorem recent_take_sorted {α : Type} (r : α → α → Prop) [DecidableRel r]
    [IsTotal α r] [IsTrans α r] (rows : List α) (n : Nat) :
    List.Pairwise r ((List.insertionSort r rows).take n) :=
  List.Pairwise.sublist (List.take_sublist n _)
    (List.sorted_insertionSort r rows)

theorem recent_take_dominates {α : Type} (r : α → α → Prop) [DecidableRel r]
    [IsTotal α r] [IsTrans α r] (rows : List α) (n : Nat) :
    ∀ y ∈ rows, y ∉ (List.insertionSort r rows).take n →
      ∀ x ∈ (List.insertionSort r rows).take n, r x y := by
  intro y hy hyL x hx
  have hyS : y ∈ List.insertionSort r rows := (List.mem_insertionSort r).mpr hy
  have hyd : y ∈ (List.insertionSort r rows).drop n := by
    have hsplit :=
      (List.take_append_drop n (List.insertionSort r rows)).symm ▸ hyS
    rcases List.mem_append.mp hsplit with h | h
    · exact absurd h hyL
    · exact h
  exact sorted_take_drop r _ n (List.sorted_insertionSort r rows) x hx y hyd

/-! ### Branch lemmas for the trend endpoint -/

theorem trendMeasurements_length (db : DB) (rid : String) :
    (trendMeasurements db rid).length
      = min 144 (db.measurements.filter (fun m => m.sensor_id = rid)).length :=
  recent_take_length _ _ _

theorem trendKpis_length (db : DB) (bid ktype : String) :
    (trendKpis db bid ktype).length
      = min 144 (db.kpis.filter
          (fun k => k.bridge_id = bid ∧ k.kpi_type = ktype)).length :=
  recent_take_length _ _ _

theorem trendMeasurements_eq_nil_iff (db : DB) (rid : String) :
    trendMeasurements db rid = []
      ↔ db.measurements.filter (fun m => m.sensor_id = rid) = [] := by
  unfold trendMeasurements
  rw [← List.length_eq_zero, ← List.length_eq_zero, List.length_take,
    List.length_insertionSort]
  omega

theorem get_trend_summary_sensor (db : DB) (rid : String)
    (h : trendMeasurements db rid ≠ []) :
    get_trend_summary db rid
      = (trendMeasurements db rid).reverse.map sensorPoint := by
  rw [get_trend_summary, if_pos h]

theorem get_trend_summary_kpi (db : DB) (rid bid ktype : String)
    (h : trendMeasurements db rid = [])
    (hf : findKpiSuffix rid = some (bid, ktype)) (hbid : bid ≠ "") :
    get_trend_summary db rid
      = (trendKpis db bid ktype).reverse.map (kpiPoint ktype) := by
  rw [get_trend_summary, if_neg (by simp [h]), hf]
  exact if_pos hbid

theorem get_trend_summary_empty_bid (db : DB) (rid ktype : String)
    (h : trendMeasurements db rid = [])
    (hf : findKpiSuffix rid = some ("", ktype)) :
    get_trend_summary db rid = [] := by
  rw [get_trend_summary, if_neg (by simp [h]), hf]
  simp

theorem get_trend_summary_nomatch (db : DB) (rid : String)
    (h : trendMeasurements db rid = [])
    (hf : findKpiSuffix rid = none) :
    get_trend_summary db rid = [] := by
  rw [get_trend_summary, if_neg (by simp [h]), hf]

/-- **C3 (amended).** `GET /summary/{resource_id}` returns at most 144
entries.  When the id has stored measurements, it returns the 144 most
recent measurements of that sensor in ascending timestamp order; otherwise,
when the id ends with a known KPI-type suffix AND the prefix left after
stripping the suffix is non-empty, the 144 most recent KPI rows of that
type for that prefix in ascending timestamp order; otherwise (including
the empty stripped prefix, which is falsy in Python) the empty list. -/
theorem get_trend_summary_trend (db : DB) (resource_id : String) :
    (get_trend_summary db resource_id).length ≤ 144 ∧
    (db.measurements.filter (fun m => m.sensor_id = resource_id) ≠ [] →
      get_trend_summary db resource_id
        = (trendMeasurements db resource_id).reverse.map sensorPoint ∧
      (trendMeasurements db resource_id).length
        = min 144 (db.measurements.filter
            (fun m => m.sensor_id = resource_id)).length ∧
      (∀ x ∈ trendMeasurements db resource_id,
        x ∈ db.measurements.filter (fun m => m.sensor_id = resource_id)) ∧
      List.Pairwise measTsLe ((trendMeasurements db resource_id).reverse) ∧
      (∀ y ∈ db.measurements.filter (fun m => m.sensor_id = resource_id),
        y ∉ trendMeasurements db resource_id →
        ∀ x ∈ trendMeasurements db resource_id, y.ts ≤ x.ts)) ∧
    (db.measurements.filter (fun m => m.sensor_id = resource_id) = [] →
      ∀ bid ktype : String, findKpiSuffix resource_id = some (bid, ktype) →
        (bid ≠ "" →
          get_trend_summary db resource_id
            = (trendKpis db bid ktype).reverse.map (kpiPoint ktype) ∧
          (trendKpis db bid ktype).length
            = min 144 (db.kpis.filter
                (fun k => k.bridge_id = bid ∧ k.kpi_type = ktype)).length ∧
          (∀ x ∈ trendKpis db bid ktype,
            x ∈ db.kpis.filter
              (fun k => k.bridge_id = bid ∧ k.kpi_type = ktype)) ∧
          List.Pairwise (fun a b : KpiDB => a.timestamp ≤ b.timestamp)
            ((trendKpis db bid ktype).reverse) ∧
          (∀ y ∈ db.kpis.filter
              (fun k => k.bridge_id = bid ∧ k.kpi_type = ktype),
            y ∉ trendKpis db bid ktype →
            ∀ x ∈ trendKpis db bid ktype, y.timestamp ≤ x.timestamp)) ∧
        (bid = "" → get_trend_summary db resource_id = [])) ∧
    (db.measurements.filter (fun m => m.sensor_id = resource_id) = [] →
      findKpiSuffix resource_id = none →
      get_trend_summary db resource_id = []) := by
  refine ⟨?_, ?_, ?_, ?_⟩
  · rw [get_trend_summary]
    split
    · rw [List.length_map, List.length_reverse, trendMeasurements_length]
      exact Nat.min_le_left _ _
    · split
      · split
        · rw [List.length_map, List.length_reverse, trendKpis_length]
          exact Nat.min_le_left _ _
        · simp
      · simp
  · intro hne
    have hne' : trendMeasurements db resource_id ≠ [] := by
      rw [Ne, trendMeasurements_eq_nil_iff]
      exact hne
    refine ⟨get_trend_summary_sensor db resource_id hne',
      trendMeasurements_length db resource_id,
      recent_take_mem measTsGe _ 144, ?_, ?_⟩
    · rw [List.pairwise_reverse]
      exact recent_take_sorted measTsGe _ 144
    · intro y hy hyL x hx
      exact recent_take_dominates measTsGe _ 144 y hy hyL x hx
  · intro hnil bid ktype hf
    have hnil' : trendMeasurements db resource_id = [] :=
      (trendMeasurements_eq_nil_iff db resource_id).mpr hnil
    constructor
    · intro hbid
      refine ⟨get_trend_summary_kpi db resource_id bid ktype hnil' hf hbid,
        trendKpis_length db bid ktype,
        recent_take_mem kpiTsGe _ 144, ?_, ?_⟩
      · rw [List.pairwise_reverse]
        exact recent_take_sorted kpiTsGe _ 144
      · intro y hy hyL x hx
        exact recent_take_dominates kpiTsGe _ 144 y hy hyL x hx
    · intro hbid
      subst hbid
      exact get_trend_summary_empty_bid db resource_id ktype hnil' hf
  · intro hnil hf
    exact get_trend_summary_nomatch db resource_id
      ((trendMeasurements_eq_nil_iff db resource_id).mpr hnil) hf

def c3DB : DB :=
  { kpis := [{ id := 1, timestamp := 10, bridge_id := "",
               kpi_type := "structuralHealth", value := some 50 }] }

/-- Counterexample to C3 as stated: for `resource_id = "-structuralHealth"`
there are no measurements, the id ends with the known suffix
`-structuralHealth`, and the database holds exactly one KPI row of that
type for the stripped bridge id `""`; the claim prescribes that row's entry
but the handler returns the empty list (the empty string is falsy at
line 440 of main.py). -/
theorem get_trend_summary_empty_prefix_counterexample :
    get_trend_summary c3DB "-structuralHealth" = [] ∧
    strEndsWith "-structuralHealth" "-structuralHealth" = true ∧
    c3DB.measurements.filter
      (fun m => m.sensor_id = "-structuralHealth") = [] ∧
    (c3DB.kpis.filter (fun k =>
      k.bridge_id = strDropRight "-structuralHealth"
          ("structuralHealth".length + 1)
        ∧ k.kpi_type = "structuralHealth")).length = 1 := by
  refine ⟨by decide, by decide, rfl, by decide⟩

/-- Witness for the C3 theorem at a concrete database and resource id. -/
theorem get_trend_summary_trend_witness :
    (get_trend_summary c1DB "s1").length ≤ 144 ∧
    (c1DB.measurements.filter (fun m => m.sensor_id = "s1") ≠ [] →
      get_trend_summary c1DB "s1"
        = (trendMeasurements c1DB "s1").reverse.map sensorPoint ∧
      (trendMeasurements c1DB "s1").length
        = min 144 (c1DB.measurements.filter
            (fun m => m.sensor_id = "s1")).length ∧
      (∀ x ∈ trendMeasurements c1DB "s1",
        x ∈ c1DB.measurements.filter (fun m => m.sensor_id = "s1")) ∧
      List.Pairwise measTsLe ((trendMeasurements c1DB "s1").reverse) ∧
      (∀ y ∈ c1DB.measurements.filter (fun m => m.sensor_id = "s1"),
        y ∉ trendMeasurements c1DB "s1" →
        ∀ x ∈ trendMeasurements c1DB "s1", y.ts ≤ x.ts)) ∧
    (c1DB.measurements.filter (fun m => m.sensor_id = "s1") = [] →
      ∀ bid ktype : String, findKpiSuffix "s1" = some (bid, ktype) →
        (bid ≠ "" →
          get_trend_summary c1DB "s1"
            = (trendKpis c1DB bid ktype).reverse.map (kpiPoint ktype) ∧
          (trendKpis c1DB bid ktype).length
            = min 144 (c1DB.kpis.filter
                (fun k => k.bridge_id = bid ∧ k.kpi_type = ktype)).length ∧
          (∀ x ∈ trendKpis c1DB bid ktype,
            x ∈ c1DB.kpis.filter
              (fun k => k.bridge_id = bid ∧ k.kpi_type = ktype)) ∧
          List.Pairwise (fun a b : KpiDB => a.timestamp ≤ b.timestamp)
            ((trendKpis c1DB bid ktype).reverse) ∧
          (∀ y ∈ c1DB.kpis.filter
              (fun k => k.bridge_id = bid ∧ k.kpi_type = ktype),
            y ∉ trendKpis c1DB bid ktype →
            ∀ x ∈ trendKpis c1DB bid ktype, y.timestamp ≤ x.timestamp)) ∧
        (bid = "" → get_trend_summary c1DB "s1" = [])) ∧
    (c1DB.measurements.filter (fun m => m.sensor_id = "s1") = [] →
      findKpiSuffix "s1" = none →
      get_trend_summary c1DB "s1" = []) :=
  get_trend_summary_trend c1DB "s1"

/-! ### The dashboard endpoint (`GET /`, main.py lines 255-391) -/

/-- The `b.sensors` relationship: sensors whose `bridge_id` matches. -/
def bridgeSensors (db : DB) (bid : String) : List SensorDB :=
  db.sensors.filter (fun s => s.bridge_id = bid)

/-- Lines 337-339: the sensor's measurements `ORDER BY desc(ts)`,
`.first()`. -/
def last_meas (db : DB) (sid : String) : Option MeasurementDB :=
  (List.insertionSort measTsGe
    (db.measurements.filter (fun m => m.sensor_id = sid))).head?

/-- Lines 295-300: the bridge's KPI rows `ORDER BY desc(timestamp)`;
`latest_kpis_map[t]` keeps the first row of each type in that order. -/
def latestKpi (db : DB) (bid ktype : String) : Option KpiDB :=
  (List.insertionSort kpiTsGe
    (db.kpis.filter (fun k => k.bridge_id = bid))).find?
    (fun k => k.kpi_type = ktype)

/-- The `telemetry` dict of a node (lines 354, 358-366). -/
structure Telemetry where
  acc_x : Int
  acc_y : Int
  acc_z : Int
  sensorTemp : Int
  deriving DecidableEq, Repr

/-- Lines 354-366: zero telemetry, overwritten from `last_meas` when the
sensor has a measurement. -/
def nodeTelemetry (db : DB) (sid : String) : Telemetry :=
  match last_meas db sid with
  | some m => { acc_x := m.acc_x, acc_y := m.acc_y, acc_z := m.acc_z,
                sensorTemp := m.temp }
  | none => { acc_x := 0, acc_y := 0, acc_z := 0, sensorTemp := 0 }

/-- A KPI card of the dashboard (the dicts of lines 283-286 and 309-324);
absent dict keys are `none`. -/
structure KpiSlot where
  id : String
  status : String
  label : String
  val : Option Int := none
  unit : Option String := none
  score : Option Int := none
  trend : Option String := none
  text : Option String := none
  confidence : Option Int := none
  lastModelUpdate : Option Int := none
  deriving DecidableEq, Repr

/-- The KPI types displayed by the dashboard (keys of lines 283-286). -/
def kpiSlotTypes : List String :=
  ["structuralHealth", "accelZ", "accelGlob", "aiAnalysis"]

/-- The default KPI cards of lines 283-286 (used when the database holds no
row of that type). -/
def defaultKpiSlot (bid ktype : String) : KpiSlot :=
  if ktype = "structuralHealth" then
    { id := bid ++ "-kpi-h", status := "ok", label := "Integridad Estructural",
      score := some 100, trend := some "stable", unit := some "%" }
  else if ktype = "accelZ" then
    { id := bid ++ "-kpi-z", status := "ok", label := "Vibración Global (Z)",
      val := some 0, unit := some "g", trend := some "flat" }
  else if ktype = "accelGlob" then
    { id := bid ++ "-kpi-g", status := "ok", label := "Vibración Global",
      val := some 0, unit := some "g", trend := some "flat" }
  else
    { id := bid ++ "-kpi-ai", status := "ok", label := "Diagnóstico IA",
      text := some "Esperando datos suficientes...", confidence := some 0 }

/-- Lines 306-326: how a stored KPI row of type `ktype` replaces the
default card `kd`.  `aiAnalysis` carries text and confidence, the rest
carry `value` (0 when `NULL`) as both `val` and `score`. -/
def renderKpi (bid ktype : String) (kd : KpiSlot) (k : KpiDB) : KpiSlot :=
  let st := match k.status with
    | some s => if s ≠ "" then s else "ok"
    | none => "ok"
  if ktype = "aiAnalysis" then
    { id := bid ++ "-" ++ ktype, status := st, label := kd.label,
      lastModelUpdate := some k.timestamp,
      text := k.text_value, confidence := k.confidence }
  else
    { id := bid ++ "-" ++ ktype, status := st, label := kd.label,
      lastModelUpdate := some k.timestamp,
      val := some (k.value.getD 0), unit := kd.unit,
      score := some (k.value.getD 0), trend := some "stable" }

/-- Lines 303-326: the card displayed for `ktype` — the latest stored row
of that type when one exists, the default card otherwise. -/
def displayedKpi (db : DB) (bid ktype : String) : KpiSlot :=
  match latestKpi db bid ktype with
  | some k => renderKpi bid ktype (defaultKpiSlot bid ktype) k
  | none => defaultKpiSlot bid ktype

/-- The per-sensor update of `last_update_global` (lines 368-369); a
`datetime` value is always truthy, so `not last_update_global` is exactly
`acc = none`. -/
def stepLastUpdate (db : DB) (acc : Option Int) (s : SensorDB) : Option Int :=
  match last_meas db s.id with
  | some m =>
      match acc with
      | none => some m.ts
      | some t => if m.ts > t then some m.ts else some t
  | none => acc

/-- The `last_update_global` accumulated over the bridge's sensors
(lines 292, 336-369); `none` renders as JSON `null` (line 386). -/
def bridgeLastUpdate (db : DB) (bid : String) : Option Int :=
  (bridgeSensors db bid).foldl (stepLastUpdate db) none

/-! ### `first()` and per-type `find?` on a descending sort -/

theorem insertionSort_head?_max {α : Type} (r : α → α → Prop) [DecidableRel r]
    [IsTotal α r] [IsTrans α r] (rows : List α) (h : rows ≠ []) :
    ∃ x, (List.insertionSort r rows).head? = some x ∧ x ∈ rows ∧
      ∀ y ∈ rows, r x y := by
  cases hs : List.insertionSort r rows with
  | nil =>
    exfalso
    have hlen := List.length_insertionSort r rows
    rw [hs] at hlen
    exact h (List.length_eq_zero.mp hlen.symm)
  | cons a l =>
    refine ⟨a, rfl, ?_, ?_⟩
    · have ha : a ∈ List.insertionSort r rows := by
        rw [hs]
        exact List.mem_cons_self a l
      exact (List.mem_insertionSort r).mp ha
    · intro y hy
      have hyS : y ∈ List.insertionSort r rows :=
        (List.mem_insertionSort r).mpr hy
      rw [hs] at hyS
      rcases List.mem_cons.mp hyS with rfl | hyl
      · exact (total_of r y y).elim id id
      · have hsorted := List.sorted_insertionSort r rows
        rw [hs] at hsorted
        exact List.rel_of_sorted_cons hsorted y hyl

theorem find?_sorted_rel {α : Type} {r : α → α → Prop} (hrefl : ∀ a, r a a) :
    ∀ (l : List α), List.Pairwise r l → ∀ (p : α → Bool) (x : α),
      l.find? p = some x → ∀ y ∈ l, p y = true → r x y := by
  intro l
  induction l with
  | nil =>
    intro _ p x hfind
    simp at hfind
  | cons a l ih =>
    intro hp p x hfind y hy hpy
    rcases List.pairwise_cons.mp hp with ⟨ha, hl⟩
    cases hpa : p a
    · rw [List.find?_cons_of_neg _ (by simp [hpa])] at hfind
      rcases List.mem_cons.mp hy with rfl | hyl
      · rw [hpa] at hpy
        cases hpy
      · exact ih hl p x hfind y hyl hpy
    · rw [List.find?_cons_of_pos _ hpa] at hfind
      have hax : a = x := by injection hfind
      subst hax
      rcases List.mem_cons.mp hy with rfl | hyl
      · exact hrefl y
      · exact ha y hyl

theorem last_meas_spec (db : DB) (sid : String)
    (h : db.measurements.filter (fun m => m.sensor_id = sid) ≠ []) :
    ∃ m, last_meas db sid = some m ∧ m ∈ db.measurements ∧
      m.sensor_id = sid ∧
      ∀ m' ∈ db.measurements, m'.sensor_id = sid → m'.ts ≤ m.ts := by
  obtain ⟨x, hx, hmem, hmax⟩ := insertionSort_head?_max measTsGe _ h
  rcases List.mem_filter.mp hmem with ⟨hxm, hxs⟩
  refine ⟨x, hx, hxm, by simpa using hxs, ?_⟩
  intro m' hm' hsid
  exact hmax m' (List.mem_filter.mpr ⟨hm', by simp [hsid]⟩)

theorem last_meas_none (db : DB) (sid : String)
    (h : db.measurements.filter (fun m => m.sensor_id = sid) = []) :
    last_meas db sid = none := by
  unfold last_meas
  rw [h]
  rfl

theorem latestKpi_spec (db : DB) (bid ktype : String)
    (h : db.kpis.filter (fun k => k.bridge_id = bid ∧ k.kpi_type = ktype)
      ≠ []) :
    ∃ k, latestKpi db bid ktype = some k ∧ k ∈ db.kpis ∧
      k.bridge_id = bid ∧ k.kpi_type = ktype ∧
      ∀ k' ∈ db.kpis, k'.bridge_id = bid → k'.kpi_type = ktype →
        k'.timestamp ≤ k.timestamp := by
  obtain ⟨k0, hk0⟩ := List.exists_mem_of_ne_nil _ h
  rcases List.mem_filter.mp hk0 with ⟨hk0m, hk0p⟩
  rcases (decide_eq_true_eq.mp hk0p : _ ∧ _) with ⟨hk0b, hk0t⟩
  have hex : (List.insertionSort kpiTsGe
      (db.kpis.filter (fun k => k.bridge_id = bid))).find?
      (fun k => k.kpi_type = ktype) |>.isSome := by
    rw [List.find?_isSome]
    refine ⟨k0, ?_, by simp [hk0t]⟩
    rw [List.mem_insertionSort]
    exact List.mem_filter.mpr ⟨hk0m, by simp [hk0b]⟩
  obtain ⟨x, hx⟩ := Option.isSome_iff_exists.mp hex
  have hxmem := List.mem_of_find?_eq_some hx
  rw [List.mem_insertionSort] at hxmem
  rcases List.mem_filter.mp hxmem with ⟨hxm, hxb⟩
  have hxt := List.find?_some hx
  refine ⟨x, hx, hxm, by simpa using hxb, by simpa using hxt, ?_⟩
  intro k' hk' hk'b hk't
  have hk'S : k' ∈ List.insertionSort kpiTsGe
      (db.kpis.filter (fun k => k.bridge_id = bid)) := by
    rw [List.mem_insertionSort]
    exact List.mem_filter.mpr ⟨hk', by simp [hk'b]⟩
  exact find?_sorted_rel (r := kpiTsGe) (fun a => le_refl a.timestamp) _
    (List.sorted_insertionSort kpiTsGe _) _ x hx k' hk'S (by simp [hk't])

theorem latestKpi_none (db : DB) (bid ktype : String)
    (h : latestKpi db bid ktype = none) :
    displayedKpi db bid ktype = defaultKpiSlot bid ktype := by
  unfold displayedKpi
  rw [h]

/-! ### The `last_update_global` fold -/

theorem stepLastUpdate_none_iff (db : DB) (acc : Option Int) (s : SensorDB) :
    stepLastUpdate db acc s = none ↔
      acc = none ∧ last_meas db s.id = none := by
  unfold stepLastUpdate
  cases hm : last_meas db s.id
  · cases acc <;> simp
  · cases acc
    · simp
    · simp only []
      split <;> simp

theorem stepLastUpdate_some (db : DB) (acc : Option Int) (s : SensorDB)
    (t : Int) (h : stepLastUpdate db acc s = some t) :
    (acc = some t ∨ ∃ m, last_meas db s.id = some m ∧ m.ts = t) ∧
    (∀ u, acc = some u → u ≤ t) ∧
    (∀ m, last_meas db s.id = some m → m.ts ≤ t) := by
  unfold stepLastUpdate at h
  cases hm : last_meas db s.id with
  | none =>
    rw [hm] at h
    dsimp only at h
    refine ⟨Or.inl h, fun u hu => ?_, fun m hmm => by cases hmm⟩
    rw [h] at hu
    injection hu with hu
    omega
  | some m =>
    rw [hm] at h
    cases acc with
    | none =>
      dsimp only at h
      injection h with h
      refine ⟨Or.inr ⟨m, rfl, h⟩, fun u hu => Option.noConfusion hu,
        fun m' hm' => ?_⟩
      injection hm' with hm'
      rw [← hm']
      omega
    | some u0 =>
      dsimp only at h
      by_cases hgt : m.ts > u0
      · rw [if_pos hgt] at h
        injection h with h
        refine ⟨Or.inr ⟨m, rfl, h⟩, fun u hu => ?_, fun m' hm' => ?_⟩
        · injection hu with hu
          omega
        · injection hm' with hm'
          rw [← hm']
          omega
      · rw [if_neg hgt] at h
        injection h with h
        refine ⟨Or.inl (by rw [h]), fun u hu => ?_, fun m' hm' => ?_⟩
        · injection hu with hu
          omega
        · injection hm' with hm'
          rw [← hm']
          omega

theorem stepLastUpdate_acc_le (db : DB) (acc : Option Int) (s : SensorDB)
    (u : Int) (h : acc = some u) :
    ∃ u', stepLastUpdate db acc s = some u' ∧ u ≤ u' := by
  subst h
  unfold stepLastUpdate
  cases last_meas db s.id with
  | none => exact ⟨u, rfl, le_refl u⟩
  | some m =>
    dsimp only
    by_cases hgt : m.ts > u
    · exact ⟨m.ts, by rw [if_pos hgt], by omega⟩
    · exact ⟨u, by rw [if_neg hgt], le_refl u⟩

theorem stepLastUpdate_meas_le (db : DB) (acc : Option Int) (s : SensorDB)
    (m : MeasurementDB) (h : last_meas db s.id = some m) :
    ∃ u', stepLastUpdate db acc s = some u' ∧ m.ts ≤ u' := by
  unfold stepLastUpdate
  rw [h]
  cases acc with
  | none => exact ⟨m.ts, rfl, le_refl _⟩
  | some t =>
    dsimp only
    by_cases hgt : m.ts > t
    · exact ⟨m.ts, by rw [if_pos hgt], le_refl _⟩
    · exact ⟨t, by rw [if_neg hgt], by omega⟩

theorem foldLastUpdate_acc (db : DB) :
    ∀ (sensors : List SensorDB) (acc : Option Int),
      (List.foldl (stepLastUpdate db) acc sensors = none ↔
        (acc = none ∧ ∀ s ∈ sensors, last_meas db s.id = none)) ∧
      (∀ t, List.foldl (stepLastUpdate db) acc sensors = some t →
        ((acc = some t ∨
          ∃ s ∈ sensors, ∃ m, last_meas db s.id = some m ∧ m.ts = t) ∧
         (∀ u, acc = some u → u ≤ t) ∧
         (∀ s ∈ sensors, ∀ m, last_meas db s.id = some m → m.ts ≤ t))) := by
  intro sensors
  induction sensors with
  | nil =>
    intro acc
    refine ⟨by simp, fun t ht => ?_⟩
    simp only [List.foldl_nil] at ht
    refine ⟨Or.inl ht, fun u hu => ?_, by simp⟩
    rw [ht] at hu
    injection hu with hu
    omega
  | cons s rest ih =>
    intro acc
    constructor
    · rw [List.foldl_cons, ((ih (stepLastUpdate db acc s)).1)]
      rw [stepLastUpdate_none_iff]
      constructor
      · rintro ⟨⟨hacc, hms⟩, hrest⟩
        exact ⟨hacc, fun s' hs' => by
          rcases List.mem_cons.mp hs' with rfl | h
          · exact hms
          · exact hrest s' h⟩
      · rintro ⟨hacc, hall⟩
        exact ⟨⟨hacc, hall s (List.mem_cons_self s rest)⟩,
          fun s' hs' => hall s' (List.mem_cons_of_mem s hs')⟩
    · intro t ht
      rw [List.foldl_cons] at ht
      obtain ⟨hsrc, hbound, hrest⟩ := (ih (stepLastUpdate db acc s)).2 t ht
      refine ⟨?_, ?_, ?_⟩
      · rcases hsrc with hstep | ⟨s', hs', m, hm, hts⟩
        · rcases (stepLastUpdate_some db acc s t hstep).1 with hacc | ⟨m, hm, hts⟩
          · exact Or.inl hacc
          · exact Or.inr ⟨s, List.mem_cons_self s rest, m, hm, hts⟩
        · exact Or.inr ⟨s', List.mem_cons_of_mem s hs', m, hm, hts⟩
      · intro u hu
        obtain ⟨u', hu', hle⟩ := stepLastUpdate_acc_le db acc s u hu
        exact le_trans hle (hbound u' hu')
      · intro s' hs' m hm
        rcases List.mem_cons.mp hs' with rfl | h
        · obtain ⟨u', hu', hle⟩ := stepLastUpdate_meas_le db acc s' m hm
          exact le_trans hle (hbound u' hu')
        · exact hrest s' h m hm

theorem bridgeLastUpdate_spec (db : DB) (bid : String) :
    (bridgeLastUpdate db bid = none ↔
      ∀ m ∈ db.measurements, ∀ s ∈ bridgeSensors db bid,
        m.sensor_id ≠ s.id) ∧
    (∀ t, bridgeLastUpdate db bid = some t →
      (∃ m ∈ db.measurements,
        (∃ s ∈ bridgeSensors db bid, m.sensor_id = s.id) ∧ m.ts = t) ∧
      (∀ m ∈ db.measurements,
        (∃ s ∈ bridgeSensors db bid, m.sensor_id = s.id) → m.ts ≤ t)) := by
  constructor
  · rw [bridgeLastUpdate, (foldLastUpdate_acc db (bridgeSensors db bid) none).1]
    constructor
    · rintro ⟨-, hall⟩ m hm s hs hsid
      have hne : db.measurements.filter (fun x => x.sensor_id = s.id) ≠ [] := by
        intro hnil
        have := List.filter_eq_nil_iff.mp hnil m hm
        simp [hsid] at this
      obtain ⟨m0, hm0, _⟩ := last_meas_spec db s.id hne
      rw [hall s hs] at hm0
      cases hm0
    · intro hall
      refine ⟨rfl, fun s hs => ?_⟩
      apply last_meas_none
      rw [List.filter_eq_nil_iff]
      intro m hm
      simp only [decide_eq_true_eq]
      exact hall m hm s hs
  · intro t ht
    rw [bridgeLastUpdate] at ht
    obtain ⟨hsrc, -, hbnd⟩ :=
      (foldLastUpdate_acc db (bridgeSensors db bid) none).2 t ht
    constructor
    · rcases hsrc with hacc | ⟨s, hs, m, hm, hts⟩
      · cases hacc
      · have hne : db.measurements.filter
            (fun x => x.sensor_id = s.id) ≠ [] := by
          intro hnil
          unfold last_meas at hm
          rw [hnil] at hm
          cases hm
        obtain ⟨m0, hm0, hm0mem, hm0sid, -⟩ := last_meas_spec db s.id hne
        rw [hm] at hm0
        injection hm0 with hm0
        subst hm0
        exact ⟨m, hm0mem, ⟨s, hs, hm0sid⟩, hts⟩
    · intro m hm ⟨s, hs, hsid⟩
      have hne : db.measurements.filter (fun x => x.sensor_id = s.id) ≠ [] := by
        intro hnil
        have := List.filter_eq_nil_iff.mp hnil m hm
        simp [hsid] at this
      obtain ⟨m0, hm0, -, -, hm0max⟩ := last_meas_spec db s.id hne
      exact le_trans (hm0max m hm hsid) (hbnd s hs m0 hm0)

/-- **C2.** In the dashboard response, each sensor node's telemetry comes
from that sensor's stored measurement with the maximum timestamp (unique by
the `(ts, sensor_id)` primary key); each displayed KPI card whose type has
rows in the database shows the row of that type with the latest timestamp;
and the bridge's `lastUpdate` is the maximum measurement timestamp over the
bridge's sensors, `null` when no sensor has a measurement. -/
theorem get_dashboard_data_latest (db : DB) (bid : String)
    (hpk : measurementsPK db) :
    (∀ s ∈ bridgeSensors db bid,
      (db.measurements.filter (fun m => m.sensor_id = s.id) ≠ [] →
        ∃ m, last_meas db s.id = some m ∧ m ∈ db.measurements ∧
          m.sensor_id = s.id ∧
          (∀ m' ∈ db.measurements, m'.sensor_id = s.id → m'.ts ≤ m.ts) ∧
          (∀ m' ∈ db.measurements, m'.sensor_id = s.id → m'.ts = m.ts →
            m' = m) ∧
          nodeTelemetry db s.id
            = Telemetry.mk m.acc_x m.acc_y m.acc_z m.temp) ∧
      (db.measurements.filter (fun m => m.sensor_id = s.id) = [] →
        nodeTelemetry db s.id = Telemetry.mk 0 0 0 0)) ∧
    (∀ ktype ∈ kpiSlotTypes,
      db.kpis.filter (fun k => k.bridge_id = bid ∧ k.kpi_type = ktype)
          ≠ [] →
        ∃ k, latestKpi db bid ktype = some k ∧ k ∈ db.kpis ∧
          k.bridge_id = bid ∧ k.kpi_type = ktype ∧
          (∀ k' ∈ db.kpis, k'.bridge_id = bid → k'.kpi_type = ktype →
            k'.timestamp ≤ k.timestamp) ∧
          displayedKpi db bid ktype
            = renderKpi bid ktype (defaultKpiSlot bid ktype) k) ∧
    (bridgeLastUpdate db bid = none ↔
      ∀ m ∈ db.measurements, ∀ s ∈ bridgeSensors db bid,
        m.sensor_id ≠ s.id) ∧
    (∀ t, bridgeLastUpdate db bid = some t →
      (∃ m ∈ db.measurements,
        (∃ s ∈ bridgeSensors db bid, m.sensor_id = s.id) ∧ m.ts = t) ∧
      (∀ m ∈ db.measurements,
        (∃ s ∈ bridgeSensors db bid, m.sensor_id = s.id) → m.ts ≤ t)) := by
  refine ⟨?_, ?_, (bridgeLastUpdate_spec db bid).1,
    (bridgeLastUpdate_spec db bid).2⟩
  · intro s hs
    constructor
    · intro hne
      obtain ⟨m, hm, hmm, hmsid, hmax⟩ := last_meas_spec db s.id hne
      refine ⟨m, hm, hmm, hmsid, hmax, ?_, ?_⟩
      · intro m' hm' hsid' hts
        exact hpk m' hm' m hmm (hsid'.trans hmsid.symm) hts
      · simp [nodeTelemetry, hm]
    · intro hnil
      simp [nodeTelemetry, last_meas_none db s.id hnil]
  · intro ktype _ hne
    obtain ⟨k, hk, p1, p2, p3, p4⟩ := latestKpi_spec db bid ktype hne
    exact ⟨k, hk, p1, p2, p3, p4, by simp [displayedKpi, hk]⟩

def c2DB : DB :=
  { bridges := [{ id := "b1", name := "B1", region := "r", lat := 0, lng := 0 }],
    sensors := [{ id := "s1", bridge_id := "b1", «alias» := "a", pos_x := 0, pos_y := 0 }],
    measurements := [{ ts := 5, sensor_id := "s1", acc_x := 1, acc_y := 2, acc_z := 3, temp := 4 },
                     { ts := 9, sensor_id := "s1", acc_x := 7, acc_y := 8, acc_z := 9, temp := 10 }],
    kpis := [{ id := 1, timestamp := 3, bridge_id := "b1", kpi_type := "structuralHealth", value := some 80 },
             { id := 2, timestamp := 7, bridge_id := "b1", kpi_type := "structuralHealth", value := some 90 }] }

/-- Witness for the C2 theorem on a populated one-bridge database. -/
theorem get_dashboard_data_latest_witness :
    measurementsPK c2DB ∧
    ((∀ s ∈ bridgeSensors c2DB "b1",
      (c2DB.measurements.filter (fun m => m.sensor_id = s.id) ≠ [] →
        ∃ m, last_meas c2DB s.id = some m ∧ m ∈ c2DB.measurements ∧
          m.sensor_id = s.id ∧
          (∀ m' ∈ c2DB.measurements, m'.sensor_id = s.id → m'.ts ≤ m.ts) ∧
          (∀ m' ∈ c2DB.measurements, m'.sensor_id = s.id → m'.ts = m.ts →
            m' = m) ∧
          nodeTelemetry c2DB s.id
            = Telemetry.mk m.acc_x m.acc_y m.acc_z m.temp) ∧
      (c2DB.measurements.filter (fun m => m.sensor_id = s.id) = [] →
        nodeTelemetry c2DB s.id = Telemetry.mk 0 0 0 0)) ∧
    (∀ ktype ∈ kpiSlotTypes,
      c2DB.kpis.filter (fun k => k.bridge_id = "b1" ∧ k.kpi_type = ktype)
          ≠ [] →
        ∃ k, latestKpi c2DB "b1" ktype = some k ∧ k ∈ c2DB.kpis ∧
          k.bridge_id = "b1" ∧ k.kpi_type = ktype ∧
          (∀ k' ∈ c2DB.kpis, k'.bridge_id = "b1" → k'.kpi_type = ktype →
            k'.timestamp ≤ k.timestamp) ∧
          displayedKpi c2DB "b1" ktype
            = renderKpi "b1" ktype (defaultKpiSlot "b1" ktype) k) ∧
    (bridgeLastUpdate c2DB "b1" = none ↔
      ∀ m ∈ c2DB.measurements, ∀ s ∈ bridgeSensors c2DB "b1",
        m.sensor_id ≠ s.id) ∧
    (∀ t, bridgeLastUpdate c2DB "b1" = some t →
      (∃ m ∈ c2DB.measurements,
        (∃ s ∈ bridgeSensors c2DB "b1", m.sensor_id = s.id) ∧ m.ts = t) ∧
      (∀ m ∈ c2DB.measurements,
        (∃ s ∈ bridgeSensors c2DB "b1", m.sensor_id = s.id) → m.ts ≤ t))) :=
  ⟨by unfold measurementsPK; decide,
    get_dashboard_data_latest c2DB "b1" (by unfold measurementsPK; decide)⟩

def c7DBa : DB :=
  { sensors := [{ id := "s1", bridge_id := "b1", «alias» := "a", pos_x := 0, pos_y := 0 }],
    measurements := [{ ts := 1, sensor_id := "s1", acc_x := 11, acc_y := 0, acc_z := 0, temp := 0 }] }

def c7DBb : DB :=
  { sensors := [{ id := "s1", bridge_id := "b1", «alias» := "a", pos_x := 0, pos_y := 0 }],
    measurements := [{ ts := 1, sensor_id := "s1", acc_x := 22, acc_y := 0, acc_z := 0, temp := 0 }] }

/-- Counterexample to C7 as stated: the dashboard telemetry and trend series
served for sensor `s1` equal the stored measurement's fields, and two
databases differing only in the stored `acc_x` (11 vs 22) are served exactly
those differing stored values — the endpoints read stored device data;
`random` and `math` are imported by this revision but never used in them. -/
theorem telemetry_trend_from_storage_counterexample :
    nodeTelemetry c7DBa "s1" = Telemetry.mk 11 0 0 0 ∧
    nodeTelemetry c7DBb "s1" = Telemetry.mk 22 0 0 0 ∧
    get_trend_summary c7DBa "s1" = [TrendPoint.sensor 1 11 0 0] ∧
    get_trend_summary c7DBb "s1" = [TrendPoint.sensor 1 22 0 0] :=
  ⟨by decide, by decide, by decide, by decide⟩

/-- **C7 (amended).** The telemetry and trend data served by the dashboard
and `/summary` endpoints are read from stored rows, not synthesized: a
sensor's served telemetry equals the fields of a stored measurement row,
every point of a sensor trend series is the image of a stored measurement
row, and every point of a KPI trend series (lines 442-456) is the image of
a stored KPI row of the resolved bridge and type. -/
theorem telemetry_trend_from_storage (db : DB) (sid rid : String) :
    (∀ m, last_meas db sid = some m →
      m ∈ db.measurements ∧ m.sensor_id = sid ∧
      nodeTelemetry db sid = Telemetry.mk m.acc_x m.acc_y m.acc_z m.temp) ∧
    (db.measurements.filter (fun m => m.sensor_id = rid) ≠ [] →
      ∀ p ∈ get_trend_summary db rid,
        ∃ m ∈ db.measurements, m.sensor_id = rid ∧ p = sensorPoint m) ∧
    (db.measurements.filter (fun m => m.sensor_id = rid) = [] →
      ∀ bid ktype : String, findKpiSuffix rid = some (bid, ktype) →
        bid ≠ "" →
        ∀ p ∈ get_trend_summary db rid,
          ∃ k ∈ db.kpis, k.bridge_id = bid ∧ k.kpi_type = ktype ∧
            p = kpiPoint ktype k) := by
  refine ⟨?_, ?_, ?_⟩
  · intro m hm
    have hmem : m ∈ db.measurements.filter (fun x => x.sensor_id = sid) := by
      unfold last_meas at hm
      have hms := List.mem_of_mem_head? hm
      rwa [List.mem_insertionSort] at hms
    rcases List.mem_filter.mp hmem with ⟨h1, h2⟩
    exact ⟨h1, by simpa using h2, by simp [nodeTelemetry, hm]⟩
  · intro hne p hp
    rw [get_trend_summary_sensor db rid
      (by rw [Ne, trendMeasurements_eq_nil_iff]; exact hne)] at hp
    rw [List.mem_map] at hp
    obtain ⟨m, hmm, rfl⟩ := hp
    rw [List.mem_reverse] at hmm
    have hmf := recent_take_mem measTsGe
      (db.measurements.filter (fun x => x.sensor_id = rid)) 144 m hmm
    rcases List.mem_filter.mp hmf with ⟨h1, h2⟩
    exact ⟨m, h1, by simpa using h2, rfl⟩
  · intro hnil bid ktype hf hbid p hp
    rw [get_trend_summary_kpi db rid bid ktype
      ((trendMeasurements_eq_nil_iff db rid).mpr hnil) hf hbid] at hp
    rw [List.mem_map] at hp
    obtain ⟨k, hkk, rfl⟩ := hp
    rw [List.mem_reverse] at hkk
    have hkf := recent_take_mem kpiTsGe
      (db.kpis.filter (fun x => x.bridge_id = bid ∧ x.kpi_type = ktype))
      144 k hkk
    rcases List.mem_filter.mp hkf with ⟨h1, h2⟩
    have h3 : k.bridge_id = bid ∧ k.kpi_type = ktype := by simpa using h2
    exact ⟨k, h1, h3.1, h3.2, rfl⟩

/-- Witness for the C7 amended theorem at a concrete database: sensor `s1`
has stored measurements, and the resource id `b1-structuralHealth` has none,
ends with the known suffix and resolves to the stored KPI series of bridge
`b1`. -/
theorem telemetry_trend_from_storage_witness :
    (∀ m, last_meas c2DB "s1" = some m →
      m ∈ c2DB.measurements ∧ m.sensor_id = "s1" ∧
      nodeTelemetry c2DB "s1"
        = Telemetry.mk m.acc_x m.acc_y m.acc_z m.temp) ∧
    (c2DB.measurements.filter
        (fun m => m.sensor_id = "b1-structuralHealth") ≠ [] →
      ∀ p ∈ get_trend_summary c2DB "b1-structuralHealth",
        ∃ m ∈ c2DB.measurements, m.sensor_id = "b1-structuralHealth" ∧
          p = sensorPoint m) ∧
    (c2DB.measurements.filter
        (fun m => m.sensor_id = "b1-structuralHealth") = [] →
      ∀ bid ktype : String,
        findKpiSuffix "b1-structuralHealth" = some (bid, ktype) →
        bid ≠ "" →
        ∀ p ∈ get_trend_summary c2DB "b1-structuralHealth",
          ∃ k ∈ c2DB.kpis, k.bridge_id = bid ∧ k.kpi_type = ktype ∧
            p = kpiPoint ktype k) :=
  telemetry_trend_from_storage c2DB "s1" "b1-structuralHealth"

end LasCucharas
